import Mathlib

/-!
Verification of the session-orchestration logic of
`FreeRTOS-Plus/Demo/coreMQTT_Windows_Simulator/MQTTV5_Plain_Text/DemoTasks/PlaintextMQTTExample.c`:
the exponential-backoff connection-retry loop (`prvConnectToServerWithBackoffRetries`),
the time-bounded protocol-processing pump (`prvProcessLoopWithTimeout`), and the
acknowledgment-dispatch routines (`prvEventCallback`, `prvMQTTProcessResponse`).

The external collaborators (the coreMQTT protocol engine, the plaintext transport and
the backoff-algorithm library) are not part of the source file; the engine and the
transport are abstracted as oracles (an arbitrary status per call), and the
backoff-algorithm functions are modelled from the specification's description.
All machine integers are embedded as `Nat` with explicit reduction modulo `2 ^ 32`
where the C code uses `uint32_t` arithmetic.
-/

/-- Status codes of the coreMQTT library (`MQTTStatus_t`). The enum lives in the
coreMQTT library headers, outside this source file; the demo code only
distinguishes `MQTTSuccess`, `MQTTNeedMoreBytes` and "everything else". -/
inductive MQTTStatus
  | MQTTSuccess
  | MQTTBadParameter
  | MQTTNoMemory
  | MQTTSendFailed
  | MQTTRecvFailed
  | MQTTBadResponse
  | MQTTServerRefused
  | MQTTNoDataAvailable
  | MQTTIllegalState
  | MQTTStateCollision
  | MQTTKeepAliveTimeout
  | MQTTNeedMoreBytes
  deriving DecidableEq, Repr

/-- Reduction modulo `2 ^ 32`, the behaviour of C `uint32_t` arithmetic. -/
def u32 (n : Nat) : Nat := n % 4294967296

/-- Oracle environment for one call of `prvProcessLoopWithTimeout`:
`getTime k` is the raw value produced by the `(k+1)`-th call of
`pMqttContext->getTime()` (the first call is read at entry, one further call
after every `MQTT_ProcessLoop` step), and `processLoop k` is the status
returned by the `(k+1)`-th call of `MQTT_ProcessLoop`. -/
structure PumpEnv where
  getTime : Nat → Nat
  processLoop : Nat → MQTTStatus

/-- Value of `ulCurrentTime` after the `(j+1)`-th read of the context's time
source, as a `uint32_t`. -/
def timeAt (env : PumpEnv) (j : Nat) : Nat := u32 (env.getTime j)

/-- Value of `eMqttStatus` after `j` loop iterations: `MQTTSuccess` initially,
afterwards the status of the `j`-th `MQTT_ProcessLoop` call. -/
def statAt (env : PumpEnv) : Nat → MQTTStatus
  | 0 => .MQTTSuccess
  | j + 1 => env.processLoop j

/-- The status test of the `while` condition in `prvProcessLoopWithTimeout`:
`eMqttStatus == MQTTSuccess || eMqttStatus == MQTTNeedMoreBytes`. -/
def isRecoverable (s : MQTTStatus) : Bool :=
  s == .MQTTSuccess || s == .MQTTNeedMoreBytes

/-- The full `while` condition after `j` iterations:
`ulCurrentTime < ulMqttProcessLoopTimeoutTime` and the status test. -/
def pumpCond (env : PumpEnv) (deadline : Nat) (j : Nat) : Prop :=
  timeAt env j < deadline ∧ isRecoverable (statAt env j) = true

instance (env : PumpEnv) (deadline j : Nat) : Decidable (pumpCond env deadline j) := by
  unfold pumpCond; infer_instance

/-- The `while` loop of `prvProcessLoopWithTimeout`, `fuel`-bounded so that the
embedding is total: `j` counts the iterations already executed, and the result
is the final `eMqttStatus` (before the `MQTTNeedMoreBytes` collapse) paired
with the total number of `MQTT_ProcessLoop` calls. `none` means the loop was
still running when the fuel ran out. -/
def pumpLoopAux (env : PumpEnv) (deadline : Nat) : Nat → Nat → Option (MQTTStatus × Nat)
  | fuel, j =>
    if pumpCond env deadline j then
      match fuel with
      | 0 => none
      | fuel' + 1 => pumpLoopAux env deadline fuel' (j + 1)
    else
      some (statAt env j, j)

/-- Final normalisation of `prvProcessLoopWithTimeout`: a final
`MQTTNeedMoreBytes` is collapsed into `MQTTSuccess`. -/
def collapseNeedMore (s : MQTTStatus) : MQTTStatus :=
  if s = .MQTTNeedMoreBytes then .MQTTSuccess else s

/-- The deadline `ulMqttProcessLoopTimeoutTime = ulCurrentTime + ulTimeoutMs`
computed at entry, in `uint32_t` arithmetic. -/
def pumpDeadline (env : PumpEnv) (ulTimeoutMs : Nat) : Nat :=
  u32 (timeAt env 0 + ulTimeoutMs)

/-- `prvProcessLoopWithTimeout`: reads the entry time from the context's time
source, forms the deadline, runs the `while` loop, collapses a final
`MQTTNeedMoreBytes` into `MQTTSuccess`, and returns the status together with
the number of `MQTT_ProcessLoop` calls made. -/
def prvProcessLoopWithTimeout (env : PumpEnv) (ulTimeoutMs : Nat) (fuel : Nat) :
    Option (MQTTStatus × Nat) :=
  (pumpLoopAux env (pumpDeadline env ulTimeoutMs) fuel 0).map
    (fun p => (collapseNeedMore p.1, p.2))

/-- Unfolding equation for `pumpLoopAux` when the loop condition holds and fuel
remains. -/
theorem pumpLoopAux_cond (env : PumpEnv) (deadline fuel j : Nat)
    (h : pumpCond env deadline j) :
    pumpLoopAux env deadline (fuel + 1) j = pumpLoopAux env deadline fuel (j + 1) := by
  conv_lhs => rw [pumpLoopAux]
  simp [h]

/-- Unfolding equation for `pumpLoopAux` when the loop condition fails. -/
theorem pumpLoopAux_stop (env : PumpEnv) (deadline fuel j : Nat)
    (h : ¬ pumpCond env deadline j) :
    pumpLoopAux env deadline fuel j = some (statAt env j, j) := by
  conv_lhs => rw [pumpLoopAux.eq_def]
  simp [h]

/-- Characterisation of the pump loop: if the condition holds for the first `n`
states and fails at state `n`, the loop performs exactly `n` iterations and
ends with the state-`n` status. -/
theorem pumpLoopAux_char (env : PumpEnv) (deadline : Nat) :
    ∀ fuel n j, (∀ i, j ≤ i → i < n → pumpCond env deadline i) →
      ¬ pumpCond env deadline n → j ≤ n → n - j ≤ fuel →
      pumpLoopAux env deadline fuel j = some (statAt env n, n) := by
  intro fuel
  induction fuel with
  | zero =>
    intro n j _ hstop hjn hfuel
    have hjn' : j = n := by omega
    subst hjn'
    exact pumpLoopAux_stop env deadline 0 j hstop
  | succ fuel ih =>
    intro n j hcond hstop hjn hfuel
    by_cases hj : j = n
    · subst hj
      exact pumpLoopAux_stop env deadline (fuel + 1) j hstop
    · have hjlt : j < n := by omega
      have hcj : pumpCond env deadline j := hcond j le_rfl hjlt
      rw [pumpLoopAux_cond env deadline fuel j hcj]
      exact ih n (j + 1) (fun i hi₁ hi₂ => hcond i (by omega) hi₂) hstop (by omega) (by omega)

/-- The collapse step never produces `MQTTNeedMoreBytes`. -/
theorem collapseNeedMore_ne (s : MQTTStatus) :
    collapseNeedMore s ≠ .MQTTNeedMoreBytes := by
  cases s <;> simp [collapseNeedMore]

/-- The collapse step leaves every status outside the recoverable set unchanged. -/
theorem collapseNeedMore_of_fatal (s : MQTTStatus) (h : isRecoverable s = false) :
    collapseNeedMore s = s := by
  cases s <;> simp_all [collapseNeedMore, isRecoverable]

/-- Oracle on which the engine always succeeds and time advances by 1000 ms per
read. -/
def pumpEnvSteady : PumpEnv :=
  { getTime := fun j => j * 1000, processLoop := fun _ => .MQTTSuccess }

/-- Oracle on which the engine always reports `MQTTNeedMoreBytes` and time
advances by 1000 ms per read. -/
def pumpEnvNeed : PumpEnv :=
  { getTime := fun j => j * 1000, processLoop := fun _ => .MQTTNeedMoreBytes }

/-- Oracle on which the very first engine call fails fatally. -/
def pumpEnvFatal : PumpEnv :=
  { getTime := fun j => j * 1000, processLoop := fun _ => .MQTTRecvFailed }

/-- Oracle whose time source sits close to the `uint32_t` wrap-around point. -/
def pumpEnvWrap : PumpEnv :=
  { getTime := fun _ => 4294966000, processLoop := fun _ => .MQTTSuccess }

/-- C1: `prvProcessLoopWithTimeout` records `deadline = getTime() + T` from the
context's time source and then invokes `MQTT_ProcessLoop` exactly while the
re-read current time is strictly below the deadline and the last status is
`MQTTSuccess` or `MQTTNeedMoreBytes`; it stops at the first state where the
time budget is exhausted or the status is anything else, performing exactly
`n` engine calls and returning the (collapsed) final status. -/
theorem pump_loop_runs_exactly_while_budget_and_recoverable
    (env : PumpEnv) (T n fuel : Nat)
    (hcond : ∀ j, j < n → pumpCond env (pumpDeadline env T) j)
    (hstop : ¬ pumpCond env (pumpDeadline env T) n)
    (hfuel : n ≤ fuel) :
    prvProcessLoopWithTimeout env T fuel = some (collapseNeedMore (statAt env n), n) := by
  unfold prvProcessLoopWithTimeout
  rw [pumpLoopAux_char env (pumpDeadline env T) fuel n 0
        (fun i _ hi => hcond i hi) hstop (Nat.zero_le n) (by omega)]
  rfl

/-- Witness for C1: with a steadily advancing clock and an always-successful
engine, a 2500 ms budget yields exactly three engine calls and `MQTTSuccess`. -/
theorem pump_loop_runs_exactly_while_budget_and_recoverable_witness :
    prvProcessLoopWithTimeout pumpEnvSteady 2500 10 = some (.MQTTSuccess, 3) :=
  pump_loop_runs_exactly_while_budget_and_recoverable pumpEnvSteady 2500 3 10
    (by decide) (by decide) (by decide)

/-- C2: `prvProcessLoopWithTimeout` never returns `MQTTNeedMoreBytes`; whenever
the raw loop exits with last status `MQTTNeedMoreBytes`, the function returns
`MQTTSuccess` instead. -/
theorem pump_never_returns_need_more_bytes
    (env : PumpEnv) (T fuel : Nat) (r : MQTTStatus) (n : Nat)
    (h : prvProcessLoopWithTimeout env T fuel = some (r, n)) :
    r ≠ .MQTTNeedMoreBytes ∧
      (pumpLoopAux env (pumpDeadline env T) fuel 0 = some (.MQTTNeedMoreBytes, n) →
        r = .MQTTSuccess) := by
  unfold prvProcessLoopWithTimeout at h
  obtain ⟨⟨s, m⟩, hraw, hmap⟩ := Option.map_eq_some'.mp h
  obtain ⟨hr, hn⟩ := Prod.mk.injEq .. ▸ hmap
  constructor
  · exact hr ▸ collapseNeedMore_ne s
  · intro hneed
    rw [hraw] at hneed
    obtain ⟨hs, -⟩ := Prod.mk.injEq .. ▸ (Option.some.injEq .. ▸ hneed)
    rw [← hr, hs]
    rfl

/-- Witness for C2: with an engine stub that always returns
`MQTTNeedMoreBytes`, the pump terminates once the 2500 ms budget expires and
returns `MQTTSuccess`. -/
theorem pump_never_returns_need_more_bytes_witness :
    (MQTTStatus.MQTTSuccess ≠ .MQTTNeedMoreBytes) ∧
      (pumpLoopAux pumpEnvNeed (pumpDeadline pumpEnvNeed 2500) 10 0 =
          some (.MQTTNeedMoreBytes, 3) →
        MQTTStatus.MQTTSuccess = .MQTTSuccess) :=
  pump_never_returns_need_more_bytes pumpEnvNeed 2500 10 .MQTTSuccess 3 (by decide)

/-- C3: if the loop has been running (the condition held up to and including
state `k`) and the `(k+1)`-th `MQTT_ProcessLoop` call returns a status outside
{`MQTTSuccess`, `MQTTNeedMoreBytes`}, the pump makes no further engine calls
(exactly `k + 1` in total) and returns that fatal status unchanged. -/
theorem pump_fatal_status_stops_and_propagates
    (env : PumpEnv) (T fuel k : Nat)
    (hrun : ∀ j, j ≤ k → pumpCond env (pumpDeadline env T) j)
    (hfat : isRecoverable (env.processLoop k) = false)
    (hfuel : k + 1 ≤ fuel) :
    prvProcessLoopWithTimeout env T fuel = some (env.processLoop k, k + 1) := by
  have hstop : ¬ pumpCond env (pumpDeadline env T) (k + 1) := by
    intro hc
    have : isRecoverable (statAt env (k + 1)) = true := hc.2
    simp [statAt, hfat] at this
  have hchar := pumpLoopAux_char env (pumpDeadline env T) fuel (k + 1) 0
    (fun i _ hi => hrun i (by omega)) hstop (Nat.zero_le _) (by omega)
  unfold prvProcessLoopWithTimeout
  rw [hchar]
  simp only [Option.map_some', statAt]
  rw [collapseNeedMore_of_fatal _ hfat]

/-- Witness for C3. -/
theorem pump_fatal_status_stops_and_propagates_witness :
    prvProcessLoopWithTimeout pumpEnvFatal 2500 10 = some (.MQTTRecvFailed, 1) :=
  pump_fatal_status_stops_and_propagates pumpEnvFatal 2500 10 0
    (by decide) (by decide) (by decide)

/-- C9: when at entry the current time already compares greater than or equal
to the computed `uint32_t` deadline (for instance with `ulTimeoutMs = 0`, or
when `ulCurrentTime + ulTimeoutMs` wraps around 32-bit arithmetic), the pump
returns `MQTTSuccess` without a single `MQTT_ProcessLoop` call. -/
theorem pump_expired_budget_returns_success_no_calls
    (env : PumpEnv) (T fuel : Nat)
    (h : ¬ timeAt env 0 < pumpDeadline env T) :
    prvProcessLoopWithTimeout env T fuel = some (.MQTTSuccess, 0) := by
  have hstop : ¬ pumpCond env (pumpDeadline env T) 0 := fun hc => h hc.1
  unfold prvProcessLoopWithTimeout
  rw [pumpLoopAux_stop env (pumpDeadline env T) fuel 0 hstop]
  rfl

/-- Witness for C9: a time source near the `uint32_t` wrap point with a 2000 ms
budget makes the deadline wrap below the current time, so the pump performs
zero engine calls and returns `MQTTSuccess`. -/
theorem pump_expired_budget_returns_success_no_calls_witness :
    prvProcessLoopWithTimeout pumpEnvWrap 2000 10 = some (.MQTTSuccess, 0) :=
  pump_expired_budget_returns_success_no_calls pumpEnvWrap 2000 10 (by decide)

/-- Status codes of the plaintext transport (`PlaintextTransportStatus_t`).
The enum lives in `transport_plaintext.h`, outside this source file; the demo
code only distinguishes `PLAINTEXT_TRANSPORT_SUCCESS` from everything else. -/
inductive PlaintextTransportStatus
  | PLAINTEXT_TRANSPORT_SUCCESS
  | PLAINTEXT_TRANSPORT_INVALID_PARAMETER
  | PLAINTEXT_TRANSPORT_CONNECT_FAILURE
  deriving DecidableEq, Repr

/-- Status codes of the backoff-algorithm library (`BackoffAlgorithmStatus_t`). -/
inductive BackoffAlgorithmStatus
  | BackoffAlgorithmSuccess
  | BackoffAlgorithmRetriesExhausted
  deriving DecidableEq, Repr

/-- Modelled from the spec: the retry state of the backoff-algorithm library
(`BackoffAlgorithmContext_t`), whose source is not part of this file. The spec
describes it as RetryState = {attempt count, base delay, max delay, max
attempts}. -/
structure BackoffAlgorithmContext_t where
  attemptsDone : Nat
  baseDelayMs : Nat
  maxBackoffDelayMs : Nat
  maxRetryAttempts : Nat
  deriving DecidableEq, Repr

/-- `mqttexampleRETRY_BACKOFF_BASE_MS` (500 ms). -/
def mqttexampleRETRY_BACKOFF_BASE_MS : Nat := 500

/-- `mqttexampleRETRY_MAX_BACKOFF_DELAY_MS` (5000 ms). -/
def mqttexampleRETRY_MAX_BACKOFF_DELAY_MS : Nat := 5000

/-- `mqttexampleRETRY_MAX_ATTEMPTS` (5). -/
def mqttexampleRETRY_MAX_ATTEMPTS : Nat := 5

/-- Modelled from the spec: `BackoffAlgorithm_InitializeParams`, whose source
is not part of this file — it seeds the retry state with a zero attempt count
and the configured base delay, delay cap and attempt ceiling. -/
def BackoffAlgorithm_InitializeParams (base maxDelay maxAttempts : Nat) :
    BackoffAlgorithmContext_t :=
  { attemptsDone := 0
    baseDelayMs := base
    maxBackoffDelayMs := maxDelay
    maxRetryAttempts := maxAttempts }

/-- Modelled from the spec: `BackoffAlgorithm_GetNextBackoff`, whose source is
not part of this file. The spec describes it as: unless the attempt ceiling is
reached (in which case it reports `BackoffAlgorithmRetriesExhausted`), it
computes `delay = random(0, min(base_delay * 2^attempt, max_delay))` — here
realised as the random sample reduced into that inclusive interval — and
increments the attempt counter. Returns (status, updated state, delay). -/
def BackoffAlgorithm_GetNextBackoff (ctx : BackoffAlgorithmContext_t)
    (randomValue : Nat) :
    BackoffAlgorithmStatus × BackoffAlgorithmContext_t × Nat :=
  if ctx.attemptsDone < ctx.maxRetryAttempts then
    let cap := min (ctx.baseDelayMs * 2 ^ ctx.attemptsDone) ctx.maxBackoffDelayMs
    (.BackoffAlgorithmSuccess,
      { ctx with attemptsDone := ctx.attemptsDone + 1 },
      randomValue % (cap + 1))
  else
    (.BackoffAlgorithmRetriesExhausted, ctx, 0)

/-- Oracle environment for `prvConnectToServerWithBackoffRetries`:
`connect k` is the status of the `(k+1)`-th `Plaintext_FreeRTOS_Connect`
attempt and `rand k` the value of the `(k+1)`-th `uxRand()` call. -/
structure RetryEnv where
  connect : Nat → PlaintextTransportStatus
  rand : Nat → Nat

/-- The do-while loop of `prvConnectToServerWithBackoffRetries`: attempt a
transport connect; on success leave the loop at once; on failure consult
`BackoffAlgorithm_GetNextBackoff` and either stop (retries exhausted) or sleep
for the returned delay (`vTaskDelay`) and retry. Returns the final
`xNetworkStatus`, the number of connect attempts made, and the list of sleep
durations passed to `vTaskDelay`, in order. The recursion is `fuel`-bounded to
keep the embedding structural; `none` means the fuel ran out, and
`connectRetryLoopAux_total` shows fuel `maxRetryAttempts - attemptsDone`
always suffices (each retry consumes one attempt of the ceiling). -/
def connectRetryLoopAux (env : RetryEnv) :
    Nat → Nat → BackoffAlgorithmContext_t →
    Option (PlaintextTransportStatus × Nat × List Nat)
  | fuel, k, ctx =>
    let xNetworkStatus := env.connect k
    if xNetworkStatus = .PLAINTEXT_TRANSPORT_SUCCESS then
      some (xNetworkStatus, k + 1, [])
    else
      match BackoffAlgorithm_GetNextBackoff ctx (env.rand k) with
      | (.BackoffAlgorithmRetriesExhausted, _, _) => some (xNetworkStatus, k + 1, [])
      | (.BackoffAlgorithmSuccess, ctx', usNextRetryBackOff) =>
        match fuel with
        | 0 => none
        | fuel' + 1 =>
          (connectRetryLoopAux env fuel' (k + 1) ctx').map
            (fun r => (r.1, r.2.1, usNextRetryBackOff :: r.2.2))

/-- `prvConnectToServerWithBackoffRetries`: initialises the retry state with
base 500 ms, cap 5000 ms and the given attempt ceiling (the demo instantiates
the ceiling with `mqttexampleRETRY_MAX_ATTEMPTS = 5`), then runs the retry
loop, with fuel equal to the attempt ceiling (sufficient by
`connectRetryLoopAux_total`). -/
def prvConnectToServerWithBackoffRetries (env : RetryEnv) (maxAttempts : Nat) :
    Option (PlaintextTransportStatus × Nat × List Nat) :=
  connectRetryLoopAux env maxAttempts 0
    (BackoffAlgorithm_InitializeParams mqttexampleRETRY_BACKOFF_BASE_MS
      mqttexampleRETRY_MAX_BACKOFF_DELAY_MS maxAttempts)

/-- The backoff delay the loop sleeps before retry number `j + 1` when the
attempt counter stands at `d + j` (base `base`, cap `cap`). -/
def retryDelay (env : RetryEnv) (base cap k d j : Nat) : Nat :=
  env.rand (k + j) % (min (base * 2 ^ (d + j)) cap + 1)

/-- Unfolding equation for the retry loop when the connect attempt succeeds. -/
theorem connectRetryLoopAux_succ_eq (env : RetryEnv) (fuel k : Nat)
    (ctx : BackoffAlgorithmContext_t)
    (h : env.connect k = .PLAINTEXT_TRANSPORT_SUCCESS) :
    connectRetryLoopAux env fuel k ctx =
      some (.PLAINTEXT_TRANSPORT_SUCCESS, k + 1, []) := by
  rw [connectRetryLoopAux.eq_def]
  simp [h]

/-- Unfolding equation for the retry loop when the connect attempt fails and
the attempt ceiling has been reached: the loop stops without sleeping and the
failing status is returned. -/
theorem connectRetryLoopAux_exhausted_eq (env : RetryEnv) (fuel k : Nat)
    (ctx : BackoffAlgorithmContext_t)
    (h1 : env.connect k ≠ .PLAINTEXT_TRANSPORT_SUCCESS)
    (h2 : ¬ ctx.attemptsDone < ctx.maxRetryAttempts) :
    connectRetryLoopAux env fuel k ctx = some (env.connect k, k + 1, []) := by
  rw [connectRetryLoopAux.eq_def]
  simp [h1, BackoffAlgorithm_GetNextBackoff, h2]

/-- Unfolding equation for the retry loop when the connect attempt fails and
attempts remain: the loop sleeps for the computed backoff delay and retries. -/
theorem connectRetryLoopAux_retry_eq (env : RetryEnv) (fuel k : Nat)
    (ctx : BackoffAlgorithmContext_t)
    (h1 : env.connect k ≠ .PLAINTEXT_TRANSPORT_SUCCESS)
    (h2 : ctx.attemptsDone < ctx.maxRetryAttempts) :
    connectRetryLoopAux env (fuel + 1) k ctx =
      (connectRetryLoopAux env fuel (k + 1)
          { ctx with attemptsDone := ctx.attemptsDone + 1 }).map
        (fun r => (r.1, r.2.1,
          (env.rand k %
            (min (ctx.baseDelayMs * 2 ^ ctx.attemptsDone) ctx.maxBackoffDelayMs + 1))
            :: r.2.2)) := by
  conv_lhs => rw [connectRetryLoopAux.eq_def]
  simp [h1, BackoffAlgorithm_GetNextBackoff, h2]

/-- Fuel `maxRetryAttempts - attemptsDone` always suffices for the retry loop:
each retry consumes one attempt, so the loop never runs out of fuel. -/
theorem connectRetryLoopAux_total (env : RetryEnv) :
    ∀ fuel k ctx, ctx.maxRetryAttempts - ctx.attemptsDone ≤ fuel →
      (connectRetryLoopAux env fuel k ctx).isSome = true := by
  intro fuel
  induction fuel with
  | zero =>
    intro k ctx hfuel
    by_cases h : env.connect k = .PLAINTEXT_TRANSPORT_SUCCESS
    · rw [connectRetryLoopAux_succ_eq env 0 k ctx h]; rfl
    · rw [connectRetryLoopAux_exhausted_eq env 0 k ctx h (by omega)]; rfl
  | succ fuel ih =>
    intro k ctx hfuel
    by_cases h : env.connect k = .PLAINTEXT_TRANSPORT_SUCCESS
    · rw [connectRetryLoopAux_succ_eq env (fuel + 1) k ctx h]; rfl
    · by_cases h2 : ctx.attemptsDone < ctx.maxRetryAttempts
      · rw [connectRetryLoopAux_retry_eq env fuel k ctx h h2]
        have hrec := ih (k + 1) { ctx with attemptsDone := ctx.attemptsDone + 1 }
          (by simp; omega)
        cases h3 : connectRetryLoopAux env fuel (k + 1)
            { ctx with attemptsDone := ctx.attemptsDone + 1 } with
        | none => rw [h3] at hrec; exact absurd hrec (by simp)
        | some v => rfl
      · rw [connectRetryLoopAux_exhausted_eq env fuel.succ k ctx h h2]; rfl

/-- Mapping over `List.range (r + 1)` peels off the head element. -/
theorem range_succ_map_fun {α : Type} (f : Nat → α) (r : Nat) :
    (List.range (r + 1)).map f = f 0 :: (List.range r).map (fun j => f (j + 1)) := by
  rw [List.range_succ_eq_map, List.map_cons, List.map_map]
  rfl

/-- Shifting the start index and attempt count of `retryDelay` by one is the
same as shifting its iteration index. -/
theorem retryDelay_shift (env : RetryEnv) (base cap k d j : Nat) :
    retryDelay env base cap (k + 1) (d + 1) j = retryDelay env base cap k d (j + 1) := by
  unfold retryDelay
  rw [show k + 1 + j = k + (j + 1) from by omega, show d + 1 + j = d + (j + 1) from by omega]

/-- Characterisation of the retry loop on a run where every connect attempt up
to and including the `r`-th (with `r` the remaining attempt budget) fails: the
loop makes `r + 1` attempts, sleeps `r` times for the computed backoff delays,
and returns the last failing status. -/
theorem connectRetryLoopAux_fail_all (env : RetryEnv) (base cap : Nat) :
    ∀ r fuel k d m, r = m - d → r ≤ fuel →
      (∀ i, i ≤ r → env.connect (k + i) ≠ .PLAINTEXT_TRANSPORT_SUCCESS) →
      connectRetryLoopAux env fuel k ⟨d, base, cap, m⟩ =
        some (env.connect (k + r), k + r + 1,
          (List.range r).map (retryDelay env base cap k d)) := by
  intro r
  induction r with
  | zero =>
    intro fuel k d m hr hfuel hfail
    have h0 : env.connect k ≠ .PLAINTEXT_TRANSPORT_SUCCESS := hfail 0 (Nat.le_refl 0)
    rw [connectRetryLoopAux_exhausted_eq env fuel k ⟨d, base, cap, m⟩ h0 (by simp; omega)]
    rfl
  | succ r ih =>
    intro fuel k d m hr hfuel hfail
    cases fuel with
    | zero => omega
    | succ fuel =>
      have h0 : env.connect k ≠ .PLAINTEXT_TRANSPORT_SUCCESS := hfail 0 (Nat.zero_le _)
      have hdm : d < m := by omega
      rw [connectRetryLoopAux_retry_eq env fuel k ⟨d, base, cap, m⟩ h0 (by simpa using hdm)]
      rw [ih fuel (k + 1) (d + 1) m (by omega) (by omega)
        (fun i hi => by
          rw [show k + 1 + i = k + (i + 1) from by omega]
          exact hfail (i + 1) (by omega))]
      simp only [Option.map_some']
      have hlist : List.map (retryDelay env base cap (k + 1) (d + 1)) (List.range r) =
          List.map (fun j => retryDelay env base cap k d (j + 1)) (List.range r) :=
        List.map_congr_left (fun j _ => retryDelay_shift env base cap k d j)
      rw [range_succ_map_fun (retryDelay env base cap k d) r, hlist,
        show k + 1 + r = k + (r + 1) from by omega]
      rfl

/-- Characterisation of the retry loop on a run where the first `s` connect
attempts fail and the `(s+1)`-th succeeds within the remaining attempt budget:
the loop makes `s + 1` attempts, sleeps `s` times for the computed backoff
delays, and returns success with no sleep after the successful attempt. -/
theorem connectRetryLoopAux_first_succ (env : RetryEnv) (base cap : Nat) :
    ∀ s fuel k d m, s ≤ m - d → s ≤ fuel →
      (∀ i, i < s → env.connect (k + i) ≠ .PLAINTEXT_TRANSPORT_SUCCESS) →
      env.connect (k + s) = .PLAINTEXT_TRANSPORT_SUCCESS →
      connectRetryLoopAux env fuel k ⟨d, base, cap, m⟩ =
        some (.PLAINTEXT_TRANSPORT_SUCCESS, k + s + 1,
          (List.range s).map (retryDelay env base cap k d)) := by
  intro s
  induction s with
  | zero =>
    intro fuel k d m hs hfuel hfail hsucc
    rw [connectRetryLoopAux_succ_eq env fuel k ⟨d, base, cap, m⟩ hsucc]
    rfl
  | succ s ih =>
    intro fuel k d m hs hfuel hfail hsucc
    cases fuel with
    | zero => omega
    | succ fuel =>
      have h0 : env.connect k ≠ .PLAINTEXT_TRANSPORT_SUCCESS :=
        hfail 0 (Nat.succ_pos s)
      have hdm : d < m := by omega
      rw [connectRetryLoopAux_retry_eq env fuel k ⟨d, base, cap, m⟩ h0 (by simpa using hdm)]
      rw [ih fuel (k + 1) (d + 1) m (by omega) (by omega)
        (fun i hi => by
          rw [show k + 1 + i = k + (i + 1) from by omega]
          exact hfail (i + 1) (by omega))
        (by rw [show k + 1 + s = k + (s + 1) from by omega]; exact hsucc)]
      simp only [Option.map_some']
      have hlist : List.map (retryDelay env base cap (k + 1) (d + 1)) (List.range s) =
          List.map (fun j => retryDelay env base cap k d (j + 1)) (List.range s) :=
        List.map_congr_left (fun j _ => retryDelay_shift env base cap k d j)
      rw [range_succ_map_fun (retryDelay env base cap k d) s, hlist,
        show k + 1 + s = k + (s + 1) from by omega]
      rfl

/-- The delay produced by `BackoffAlgorithm_GetNextBackoff` never exceeds
`min(base * 2^attempt, max_delay)`. -/
theorem backoff_getNextBackoff_le (ctx : BackoffAlgorithmContext_t) (randomValue : Nat) :
    (BackoffAlgorithm_GetNextBackoff ctx randomValue).2.2 ≤
      min (ctx.baseDelayMs * 2 ^ ctx.attemptsDone) ctx.maxBackoffDelayMs := by
  unfold BackoffAlgorithm_GetNextBackoff
  split
  · exact Nat.lt_succ_iff.mp (Nat.mod_lt _ (Nat.succ_pos _))
  · exact Nat.zero_le _

/-- `BackoffAlgorithm_GetNextBackoff` reports success while the attempt
ceiling has not been reached. -/
theorem backoff_getNextBackoff_status (ctx : BackoffAlgorithmContext_t) (randomValue : Nat)
    (h : ctx.attemptsDone < ctx.maxRetryAttempts) :
    (BackoffAlgorithm_GetNextBackoff ctx randomValue).1 = .BackoffAlgorithmSuccess := by
  unfold BackoffAlgorithm_GetNextBackoff
  rw [if_pos h]

/-- C4: full characterisation of `prvConnectToServerWithBackoffRetries` with
attempt ceiling `m`. If the first success comes at attempt `s` (zero-based,
within the budget), the controller returns `PLAINTEXT_TRANSPORT_SUCCESS` after
exactly `s + 1` connect attempts, having slept exactly once after each of the
`s` failed attempts for the randomized backoff delay of that attempt and never
after the successful one. If every attempt up to the ceiling fails, the
controller stops after `m + 1` attempts with exactly `m` backoff sleeps — no
sleep after `BackoffAlgorithm_GetNextBackoff` reports exhaustion — and
returns the last failing transport status to the caller. -/
theorem retry_controller_success_and_exhaustion (env : RetryEnv) (m : Nat) :
    (∀ s, s ≤ m → (∀ i, i < s → env.connect i ≠ .PLAINTEXT_TRANSPORT_SUCCESS) →
      env.connect s = .PLAINTEXT_TRANSPORT_SUCCESS →
      prvConnectToServerWithBackoffRetries env m =
        some (.PLAINTEXT_TRANSPORT_SUCCESS, s + 1,
          (List.range s).map (retryDelay env mqttexampleRETRY_BACKOFF_BASE_MS
            mqttexampleRETRY_MAX_BACKOFF_DELAY_MS 0 0))) ∧
    ((∀ i, i ≤ m → env.connect i ≠ .PLAINTEXT_TRANSPORT_SUCCESS) →
      prvConnectToServerWithBackoffRetries env m =
        some (env.connect m, m + 1,
          (List.range m).map (retryDelay env mqttexampleRETRY_BACKOFF_BASE_MS
            mqttexampleRETRY_MAX_BACKOFF_DELAY_MS 0 0))) := by
  constructor
  · intro s hs hfail hsucc
    have := connectRetryLoopAux_first_succ env mqttexampleRETRY_BACKOFF_BASE_MS
      mqttexampleRETRY_MAX_BACKOFF_DELAY_MS s m 0 0 m (by omega) hs
      (fun i hi => by simpa using hfail i hi) (by simpa using hsucc)
    simpa [prvConnectToServerWithBackoffRetries, BackoffAlgorithm_InitializeParams]
      using this
  · intro hfail
    have := connectRetryLoopAux_fail_all env mqttexampleRETRY_BACKOFF_BASE_MS
      mqttexampleRETRY_MAX_BACKOFF_DELAY_MS m m 0 0 m (by omega) (Nat.le_refl m)
      (fun i hi => by simpa using hfail i hi)
    simpa [prvConnectToServerWithBackoffRetries, BackoffAlgorithm_InitializeParams]
      using this

/-- Transport oracle that refuses the first two connect attempts and accepts
from the third on; the random source is `1234 + call index`. -/
def retryEnvW : RetryEnv :=
  { connect := fun k =>
      if k < 2 then .PLAINTEXT_TRANSPORT_CONNECT_FAILURE else .PLAINTEXT_TRANSPORT_SUCCESS
    rand := fun j => 1234 + j }

/-- Witness for C4: two refused attempts, then success on the third; the two
backoff sleeps are `1234 % 501 = 232` and `1235 % 1001 = 234` ms, and no sleep
follows the successful attempt. -/
theorem retry_controller_success_and_exhaustion_witness :
    prvConnectToServerWithBackoffRetries retryEnvW 5 =
      some (.PLAINTEXT_TRANSPORT_SUCCESS, 3, [232, 234]) :=
  ((retry_controller_success_and_exhaustion retryEnvW 5).1 2
    (by decide) (by decide) (by decide)).trans (by decide)

/-- C5: for every attempt count `a` still below the attempt ceiling, the
backoff delay produced by `BackoffAlgorithm_GetNextBackoff` with base
`mqttexampleRETRY_BACKOFF_BASE_MS = 500` and cap
`mqttexampleRETRY_MAX_BACKOFF_DELAY_MS = 5000` lies within
`[0, min(500 * 2^a, 5000)]` milliseconds (the lower bound is inherent to
`Nat`). -/
theorem backoff_delay_within_bounds (a randomValue maxA : Nat) (h : a < maxA) :
    (BackoffAlgorithm_GetNextBackoff ⟨a, 500, 5000, maxA⟩ randomValue).1 =
        .BackoffAlgorithmSuccess ∧
      (BackoffAlgorithm_GetNextBackoff ⟨a, 500, 5000, maxA⟩ randomValue).2.2 ≤
        min (500 * 2 ^ a) 5000 :=
  ⟨backoff_getNextBackoff_status _ _ h, backoff_getNextBackoff_le _ _⟩

/-- Witness for C5 at attempt count 3 of a ceiling of 5 with random sample
777777. -/
theorem backoff_delay_within_bounds_witness :
    (BackoffAlgorithm_GetNextBackoff ⟨3, 500, 5000, 5⟩ 777777).1 =
        .BackoffAlgorithmSuccess ∧
      (BackoffAlgorithm_GetNextBackoff ⟨3, 500, 5000, 5⟩ 777777).2.2 ≤
        min (500 * 2 ^ 3) 5000 :=
  backoff_delay_within_bounds 3 777777 5 (by decide)

/-- Transport oracle whose every connect attempt succeeds. -/
def retryEnvAllOk : RetryEnv :=
  { connect := fun _ => .PLAINTEXT_TRANSPORT_SUCCESS, rand := fun _ => 0 }

/-- Counterexample to C6 as stated: with the attempt ceiling configured to 0
but a transport whose very first connect attempt succeeds, the controller
returns the success status, not a failure status — the do-while loop always
performs one connect attempt before consulting the backoff state. -/
theorem retry_zero_max_attempts_can_succeed :
    prvConnectToServerWithBackoffRetries retryEnvAllOk 0 =
      some (.PLAINTEXT_TRANSPORT_SUCCESS, 1, []) := by
  decide

/-- C6 (amended): with the attempt ceiling configured to 0 the controller
performs exactly one connect attempt, never sleeps (no `vTaskDelay` call),
and immediately returns that single attempt's status — the failing status
when the attempt fails, success when it succeeds. -/
theorem retry_zero_max_attempts_single_attempt_no_sleep (env : RetryEnv) :
    prvConnectToServerWithBackoffRetries env 0 = some (env.connect 0, 1, []) := by
  unfold prvConnectToServerWithBackoffRetries
  by_cases h : env.connect 0 = .PLAINTEXT_TRANSPORT_SUCCESS
  · rw [connectRetryLoopAux_succ_eq env 0 0 _ h, h]
  · rw [connectRetryLoopAux_exhausted_eq env 0 0 _ h
      (by simp [BackoffAlgorithm_InitializeParams])]

/-- MQTT control-packet type byte for PUBACK (`MQTT_PACKET_TYPE_PUBACK`). The
packet-type constants live in the coreMQTT serializer header, outside this
source file; the demo only compares them for equality. -/
def MQTT_PACKET_TYPE_PUBACK : Nat := 0x40

/-- MQTT control-packet type byte for PUBREC (`MQTT_PACKET_TYPE_PUBREC`). -/
def MQTT_PACKET_TYPE_PUBREC : Nat := 0x50

/-- MQTT control-packet type byte for PUBREL (`MQTT_PACKET_TYPE_PUBREL`). -/
def MQTT_PACKET_TYPE_PUBREL : Nat := 0x62

/-- MQTT control-packet type byte for PUBCOMP (`MQTT_PACKET_TYPE_PUBCOMP`). -/
def MQTT_PACKET_TYPE_PUBCOMP : Nat := 0x70

/-- MQTT control-packet type byte for PINGRESP (`MQTT_PACKET_TYPE_PINGRESP`). -/
def MQTT_PACKET_TYPE_PINGRESP : Nat := 0xD0

/-- SUBACK status codes (`MQTTSubAckStatus_t`) from the coreMQTT headers. -/
inductive MQTTSubAckStatus
  | MQTTSubAckSuccessQos0
  | MQTTSubAckSuccessQos1
  | MQTTSubAckSuccessQos2
  | MQTTSubAckFailure
  deriving DecidableEq, Repr

/-- `topicFilterContext_t`: a topic filter string paired with its SUBACK
status (the fixed-size `pcTopicFilter` byte buffer is embedded as a string). -/
structure topicFilterContext_t where
  pcTopicFilter : String
  xSubAckStatus : MQTTSubAckStatus
  deriving DecidableEq, Repr

/-- The fields of `MQTTAckInfo_t` that `prvEventCallback` touches: the
outgoing-acknowledgment reason string and its length. -/
structure MQTTAckInfo_t where
  pReasonString : Option String
  reasonStringLength : Nat
  deriving DecidableEq, Repr

/-- The fields of `MQTTDeserializedInfo_t` that the dispatch path reads or
writes: the packet identifier and the (nullable) outgoing-ack info pointer. -/
structure MQTTDeserializedInfo_t where
  packetIdentifier : Nat
  pNextAckInfo : Option MQTTAckInfo_t
  deriving DecidableEq, Repr

/-- One diagnostic log line emitted by `prvMQTTProcessResponse`; `warn`
constructors correspond to `LogWarn`, the others to `LogInfo`. -/
inductive LogEntry
  | infoPuback (usPacketId : Nat)
  | warnPingresp
  | infoPubrec (usPacketId : Nat)
  | infoPubrel (usPacketId : Nat)
  | infoPubcomp (usPacketId : Nat)
  | warnUnknown (ptype : Nat)
  deriving DecidableEq, Repr

/-- The reason-string literal the demo attaches to outgoing PUBREC
acknowledgments (the C code assigns the 4-character literal directly). -/
def pubrecReasonString : String := "test"

/-- `prvMQTTProcessResponse`: the switch over the incoming packet type. Every
case only logs (info for PUBACK/PUBREC/PUBREL/PUBCOMP, a warning for PINGRESP
and for any unknown type); the topic filter array is passed through untouched,
mirroring that the C function body contains no write to
`xTopicFilterContext`. -/
def prvMQTTProcessResponse (ptype usPacketId : Nat)
    (topics : List topicFilterContext_t) :
    List LogEntry × List topicFilterContext_t :=
  if ptype = MQTT_PACKET_TYPE_PUBACK then ([.infoPuback usPacketId], topics)
  else if ptype = MQTT_PACKET_TYPE_PINGRESP then ([.warnPingresp], topics)
  else if ptype = MQTT_PACKET_TYPE_PUBREC then ([.infoPubrec usPacketId], topics)
  else if ptype = MQTT_PACKET_TYPE_PUBREL then ([.infoPubrel usPacketId], topics)
  else if ptype = MQTT_PACKET_TYPE_PUBCOMP then ([.infoPubcomp usPacketId], topics)
  else ([.warnUnknown ptype], topics)

/-- `prvEventCallback`: for a PUBREC packet it first writes the reason string
(length 4) into `*pNextAckInfo` and then runs the classification; for every
other packet type it first clears the `pNextAckInfo` slot to `NULL` and then
runs the classification. Returns the updated deserialized info, the log lines,
and the (untouched) topic filter array. -/
def prvEventCallback (ptype : Nat) (info : MQTTDeserializedInfo_t)
    (topics : List topicFilterContext_t) :
    MQTTDeserializedInfo_t × List LogEntry × List topicFilterContext_t :=
  if ptype = MQTT_PACKET_TYPE_PUBREC then
    ({ info with
        pNextAckInfo := info.pNextAckInfo.map
          (fun a => { a with
            pReasonString := some pubrecReasonString
            reasonStringLength := 4 }) },
      prvMQTTProcessResponse ptype info.packetIdentifier topics)
  else
    ({ info with pNextAckInfo := none },
      prvMQTTProcessResponse ptype info.packetIdentifier topics)

/-- `mqttexampleTOPIC_COUNT` (3). -/
def mqttexampleTOPIC_COUNT : Nat := 3

/-- `prvInitializeTopicBuffers`: writes topic strings
`<client id>/example/topic<i>` into the filter buffers and initialises every
SUBACK status to `MQTTSubAckFailure`. -/
def prvInitializeTopicBuffers (clientId : String) : List topicFilterContext_t :=
  (List.range mqttexampleTOPIC_COUNT).map
    (fun ulTopicCount =>
      { pcTopicFilter := clientId ++ "/example/topic" ++ toString ulTopicCount
        xSubAckStatus := .MQTTSubAckFailure })

/-- A whole session's worth of dispatched events: fold `prvEventCallback` over
a list of (packet type, deserialized info) pairs, threading the topic filter
array through. -/
def dispatchSession (events : List (Nat × MQTTDeserializedInfo_t))
    (topics : List topicFilterContext_t) : List topicFilterContext_t :=
  events.foldl (fun ts e => (prvEventCallback e.1 e.2 ts).2.2) topics

/-- `prvMQTTProcessResponse` returns the topic filter array unchanged in every
switch case. -/
theorem prvMQTTProcessResponse_topics (ptype usPacketId : Nat)
    (topics : List topicFilterContext_t) :
    (prvMQTTProcessResponse ptype usPacketId topics).2 = topics := by
  unfold prvMQTTProcessResponse
  split_ifs <;> rfl

/-- `prvEventCallback` returns the topic filter array unchanged on every
packet type. -/
theorem prvEventCallback_topics (ptype : Nat) (info : MQTTDeserializedInfo_t)
    (topics : List topicFilterContext_t) :
    (prvEventCallback ptype info topics).2.2 = topics := by
  unfold prvEventCallback
  split_ifs <;> exact prvMQTTProcessResponse_topics ptype info.packetIdentifier topics

/-- Folding the dispatcher over any event list leaves the topic filter array
unchanged. -/
theorem dispatchSession_topics (events : List (Nat × MQTTDeserializedInfo_t)) :
    ∀ topics, dispatchSession events topics = topics := by
  induction events with
  | nil => intro topics; rfl
  | cons e es ih =>
    intro topics
    show dispatchSession es (prvEventCallback e.1 e.2 topics).2.2 = topics
    rw [prvEventCallback_topics e.1 e.2 topics]
    exact ih topics

/-- C7: on a PUBREC packet, `prvEventCallback` attaches a non-empty reason
annotation to the outgoing acknowledgment info — `pReasonString` becomes the
4-character reason literal with `reasonStringLength = 4` — before the
classification routine runs; on every other packet type the `pNextAckInfo`
slot is cleared to `NULL` before classification runs. -/
theorem event_callback_pubrec_sets_reason_string
    (info : MQTTDeserializedInfo_t) (topics : List topicFilterContext_t)
    (a : MQTTAckInfo_t) (h : info.pNextAckInfo = some a) :
    ((prvEventCallback MQTT_PACKET_TYPE_PUBREC info topics).1.pNextAckInfo =
        some { a with pReasonString := some pubrecReasonString, reasonStringLength := 4 } ∧
      pubrecReasonString.length = 4) ∧
    (∀ ptype, ptype ≠ MQTT_PACKET_TYPE_PUBREC →
      (prvEventCallback ptype info topics).1.pNextAckInfo = none) := by
  refine ⟨⟨?_, rfl⟩, ?_⟩
  · simp [prvEventCallback, h]
  · intro ptype hne
    simp [prvEventCallback, hne]

/-- Concrete deserialized info with a live (still empty) ack-info slot. -/
def infoW : MQTTDeserializedInfo_t :=
  { packetIdentifier := 42, pNextAckInfo := some { pReasonString := none, reasonStringLength := 0 } }

/-- A concrete one-record topic filter array. -/
def topicsW : List topicFilterContext_t :=
  [{ pcTopicFilter := "testClient/example/topic0", xSubAckStatus := .MQTTSubAckFailure }]

/-- Witness for C7: a PUBREC event attaches the length-4 reason annotation; a
PUBACK event clears the slot. -/
theorem event_callback_pubrec_sets_reason_string_witness :
    (prvEventCallback MQTT_PACKET_TYPE_PUBREC infoW topicsW).1.pNextAckInfo =
        some { pReasonString := some pubrecReasonString, reasonStringLength := 4 } ∧
      (prvEventCallback MQTT_PACKET_TYPE_PUBACK infoW topicsW).1.pNextAckInfo = none := by
  have h := event_callback_pubrec_sets_reason_string infoW topicsW
    { pReasonString := none, reasonStringLength := 0 } rfl
  exact ⟨h.1.1, h.2 MQTT_PACKET_TYPE_PUBACK (by decide)⟩

/-- C8: for a packet type that is none of PUBACK, PINGRESP, PUBREC, PUBREL,
PUBCOMP, `prvMQTTProcessResponse` emits exactly one warning log line, returns
normally without any error result, and leaves every topic filter record
unchanged; the same holds along the full dispatch path through
`prvEventCallback`. -/
theorem unknown_packet_type_only_warns (ptype : Nat)
    (h1 : ptype ≠ MQTT_PACKET_TYPE_PUBACK)
    (h2 : ptype ≠ MQTT_PACKET_TYPE_PINGRESP)
    (h3 : ptype ≠ MQTT_PACKET_TYPE_PUBREC)
    (h4 : ptype ≠ MQTT_PACKET_TYPE_PUBREL)
    (h5 : ptype ≠ MQTT_PACKET_TYPE_PUBCOMP) :
    (∀ usPacketId topics,
      prvMQTTProcessResponse ptype usPacketId topics = ([.warnUnknown ptype], topics)) ∧
    (∀ info topics,
      (prvEventCallback ptype info topics).2.1 = [.warnUnknown ptype] ∧
      (prvEventCallback ptype info topics).2.2 = topics) := by
  have hresp : ∀ usPacketId topics,
      prvMQTTProcessResponse ptype usPacketId topics = ([.warnUnknown ptype], topics) := by
    intro usPacketId topics
    simp [prvMQTTProcessResponse, h1, h2, h3, h4, h5]
  refine ⟨hresp, fun info topics => ?_⟩
  constructor
  · show (prvEventCallback ptype info topics).2.1 = [.warnUnknown ptype]
    simp [prvEventCallback, h3, hresp]
  · exact prvEventCallback_topics ptype info topics

/-- Witness for C8 at the unknown packet type byte `0x10`. -/
theorem unknown_packet_type_only_warns_witness :
    prvMQTTProcessResponse 16 7 topicsW = ([.warnUnknown 16], topicsW) ∧
      (prvEventCallback 16 infoW topicsW).2.2 = topicsW := by
  have h := unknown_packet_type_only_warns 16
    (by decide) (by decide) (by decide) (by decide) (by decide)
  exact ⟨h.1 7 topicsW, (h.2 infoW topicsW).2⟩

/-- C10: the dispatch path never writes to the topic filter array — a single
`prvEventCallback` call of any packet type returns the array unchanged, and a
whole session of dispatched events leaves the array produced by
`prvInitializeTopicBuffers` intact, so every record keeps the
`MQTTSubAckFailure` status it was initialised with. -/
theorem dispatch_preserves_topic_filter_context (clientId : String)
    (events : List (Nat × MQTTDeserializedInfo_t)) :
    (∀ ptype info topics, (prvEventCallback ptype info topics).2.2 = topics) ∧
    dispatchSession events (prvInitializeTopicBuffers clientId) =
      prvInitializeTopicBuffers clientId ∧
    (dispatchSession events (prvInitializeTopicBuffers clientId)).all
      (fun r => r.xSubAckStatus == .MQTTSubAckFailure) = true := by
  refine ⟨prvEventCallback_topics,
    dispatchSession_topics events (prvInitializeTopicBuffers clientId), ?_⟩
  rw [dispatchSession_topics events (prvInitializeTopicBuffers clientId)]
  simp [prvInitializeTopicBuffers, List.all_map]
